import Mathlib

/-!
Verification development for the python-atlasapi repository.

The model below is a shallow embedding of src/atlasapi/atlas.py: the generic
pagination engine (AtlasPagination), the resource-layer operations the claims
mention (cluster delete, database-user delete, get-all listings, alert
acknowledgement), and the per-resource fetch bindings.  Python integers are
embedded as Int, Python dicts holding the two fields the engine reads are
embedded as a record of Option fields (a missing key raises KeyError on
subscript), and fallible calls return Except.
-/

/-- Errors that can escape the pagination generator body: ErrPagination (raised
by the bare except around the fetch call) and Python KeyError (raised by a
dict subscript on a missing key, which in the source happens outside the try). -/
inductive PyError where
  | errPagination : PyError
  | keyError : String → PyError
deriving DecidableEq

/-- How a full run of the generator body ends: normal return (StopIteration),
an escaped exception, or model fuel exhaustion (a model artifact only). -/
inductive Outcome where
  | done : Outcome
  | failed : PyError → Outcome
  | fuelOut : Outcome
deriving DecidableEq

/-- The page payload as the engine sees it: a parsed dict in which the two keys
the engine subscripts may each be present or absent.  The source reads
details["totalCount"] (an int) and details["results"] (a list). -/
structure RawPage (Item : Type) where
  totalCount : Option Int
  results : Option (List Item)
deriving DecidableEq

/-- Observable trace of one complete drive of the generator: the items yielded
in order, the number of times the fetch binding was invoked, and the outcome. -/
structure Trace (Item : Type) where
  items : List Item
  fetchCalls : Nat
  outcome : Outcome
deriving DecidableEq

/-- The loop body of AtlasPagination.__iter__, fuel-indexed on the number of
outer while-iterations.  Faithful translation of atlas.py lines 569-594:
while pageNum * itemsPerPage - total < itemsPerPage, call fetch inside a bare
try/except that re-raises ErrPagination, then subscript totalCount and results
(outside the try, so a missing key escapes as KeyError), yield each result in
order, and increment the local pageNum. -/
def iterAux {ε Item : Type} (fetch : Int → Int → Except ε (RawPage Item))
    (itemsPerPage : Int) : Nat → Int → Int → Trace Item
  | 0, _, _ => ⟨[], 0, .fuelOut⟩
  | fuel + 1, pageNum, total =>
    if pageNum * itemsPerPage - total < itemsPerPage then
      match fetch pageNum itemsPerPage with
      | .error _ => ⟨[], 1, .failed .errPagination⟩
      | .ok details =>
        match details.totalCount with
        | none => ⟨[], 1, .failed (.keyError "totalCount")⟩
        | some newTotal =>
          match details.results with
          | none => ⟨[], 1, .failed (.keyError "results")⟩
          | some results =>
            let rest := iterAux fetch itemsPerPage fuel (pageNum + 1) newTotal
            ⟨results ++ rest.items, 1 + rest.fetchCalls, rest.outcome⟩
    else ⟨[], 0, .done⟩

/-- The pagination object: the stored fields of AtlasPagination.__init__
(atlas, fetch, pageNum, itemsPerPage).  The atlas reference is opaque to the
engine, so it is a type parameter. -/
structure AtlasPagination (α ε Item : Type) where
  atlas : α
  fetch : Int → Int → Except ε (RawPage Item)
  pageNum : Int
  itemsPerPage : Int

/-- Driving AtlasPagination.__iter__ to completion: the local pageNum starts at
self.pageNum and the local total is seeded to pageNum * self.itemsPerPage. -/
def AtlasPagination.iter {α ε Item : Type} (self : AtlasPagination α ε Item)
    (fuel : Nat) : Trace Item :=
  iterAux self.fetch self.itemsPerPage fuel self.pageNum
    (self.pageNum * self.itemsPerPage)

lemma iterAux_zero {ε Item : Type} (fetch : Int → Int → Except ε (RawPage Item))
    (ipp : Int) (p t : Int) : iterAux fetch ipp 0 p t = ⟨[], 0, .fuelOut⟩ := rfl

lemma iterAux_stop {ε Item : Type} (fetch : Int → Int → Except ε (RawPage Item))
    (ipp : Int) (fuel : Nat) (p t : Int) (h : ¬(p * ipp - t < ipp)) :
    iterAux fetch ipp (fuel + 1) p t = ⟨[], 0, .done⟩ := by
  simp [iterAux, h]

lemma iterAux_error {ε Item : Type} (fetch : Int → Int → Except ε (RawPage Item))
    (ipp : Int) (fuel : Nat) (p t : Int) (e : ε) (h : p * ipp - t < ipp)
    (hf : fetch p ipp = .error e) :
    iterAux fetch ipp (fuel + 1) p t = ⟨[], 1, .failed .errPagination⟩ := by
  simp [iterAux, h, hf]

lemma iterAux_noTotal {ε Item : Type} (fetch : Int → Int → Except ε (RawPage Item))
    (ipp : Int) (fuel : Nat) (p t : Int) (r : Option (List Item))
    (h : p * ipp - t < ipp) (hf : fetch p ipp = .ok ⟨none, r⟩) :
    iterAux fetch ipp (fuel + 1) p t = ⟨[], 1, .failed (.keyError "totalCount")⟩ := by
  simp [iterAux, h, hf]

lemma iterAux_noResults {ε Item : Type} (fetch : Int → Int → Except ε (RawPage Item))
    (ipp : Int) (fuel : Nat) (p t : Int) (t2 : Int)
    (h : p * ipp - t < ipp) (hf : fetch p ipp = .ok ⟨some t2, none⟩) :
    iterAux fetch ipp (fuel + 1) p t = ⟨[], 1, .failed (.keyError "results")⟩ := by
  simp [iterAux, h, hf]

lemma iterAux_page {ε Item : Type} (fetch : Int → Int → Except ε (RawPage Item))
    (ipp : Int) (fuel : Nat) (p t : Int) (t2 : Int) (rs : List Item)
    (h : p * ipp - t < ipp) (hf : fetch p ipp = .ok ⟨some t2, some rs⟩) :
    iterAux fetch ipp (fuel + 1) p t =
      ⟨rs ++ (iterAux fetch ipp fuel (p + 1) t2).items,
       1 + (iterAux fetch ipp fuel (p + 1) t2).fetchCalls,
       (iterAux fetch ipp fuel (p + 1) t2).outcome⟩ := by
  simp [iterAux, h, hf]

/-- Generator control point of AtlasPagination.__iter__ between two pulls:
not yet started, about to test the outer while condition, inside the inner
results loop, returned (the generator frame is finished; further next() calls
raise StopIteration), or terminated by an escaped exception (after which the
frame is likewise finished). -/
inductive Ctl (Item : Type) where
  | start : Ctl Item
  | atLoop : Int → Int → Ctl Item
  | emitting : Int → Int → List Item → Nat → Ctl Item
  | closed : Ctl Item
  | raised : Ctl Item
deriving DecidableEq

/-- A live generator: the pagination object it was created from together with
its control point.  The object fields are carried explicitly so that any
mutation of them by the loop body would be visible in the step function. -/
structure Gen (α ε Item : Type) where
  self : AtlasPagination α ε Item
  ctl : Ctl Item

/-- What one next() call on the generator returns. -/
inductive PullRes (Item : Type) where
  | yielded : Item → PullRes Item
  | stop : PullRes Item
  | raise : PyError → PullRes Item
  | fuelOut : PullRes Item
deriving DecidableEq

/-- Result of one pull: the generator afterwards, the number of fetch calls the
pull performed, and what it returned to the caller. -/
structure PullStep (α ε Item : Type) where
  gen : Gen α ε Item
  calls : Nat
  res : PullRes Item

/-- One next() call on the generator, translated statement-by-statement from
AtlasPagination.__iter__: run from the current control point until the body
yields, returns, or raises.  Only the control point is ever replaced; the
source assigns no attribute of self inside the loop, so the object component
is passed through unchanged at every step.  Fuel bounds the number of internal
control transfers (a real pull can cross several empty pages in one call). -/
def pull {α ε Item : Type} : Nat → Gen α ε Item → PullStep α ε Item
  | 0, g => ⟨g, 0, .fuelOut⟩
  | fuel + 1, g =>
    match g.ctl with
    | .closed => ⟨g, 0, .stop⟩
    | .raised => ⟨g, 0, .stop⟩
    | .start =>
      pull fuel { g with ctl := .atLoop g.self.pageNum (g.self.pageNum * g.self.itemsPerPage) }
    | .atLoop pageNum total =>
      if pageNum * g.self.itemsPerPage - total < g.self.itemsPerPage then
        match g.self.fetch pageNum g.self.itemsPerPage with
        | .error _ => ⟨{ g with ctl := .raised }, 1, .raise .errPagination⟩
        | .ok details =>
          match details.totalCount with
          | none => ⟨{ g with ctl := .raised }, 1, .raise (.keyError "totalCount")⟩
          | some newTotal =>
            match details.results with
            | none => ⟨{ g with ctl := .raised }, 1, .raise (.keyError "results")⟩
            | some results =>
              let step := pull fuel { g with ctl := .emitting pageNum newTotal results 0 }
              ⟨step.gen, step.calls + 1, step.res⟩
      else ⟨{ g with ctl := .closed }, 0, .stop⟩
    | .emitting pageNum total results index =>
      if h : index < results.length then
        ⟨{ g with ctl := .emitting pageNum total results (index + 1) }, 0,
          .yielded (results.get ⟨index, h⟩)⟩
      else pull fuel { g with ctl := .atLoop (pageNum + 1) total }

/-- The loop body never writes any stored field of the pagination object: the
object carried out of any pull is the one carried in. -/
theorem pull_self_eq {α ε Item : Type} :
    ∀ (fuel : Nat) (g : Gen α ε Item), (pull fuel g).gen.self = g.self := by
  intro fuel
  induction fuel with
  | zero => intro g; rfl
  | succ n ih =>
    intro g
    rcases g with ⟨s, c⟩
    cases c with
    | closed => rfl
    | raised => rfl
    | start => exact ih _
    | atLoop pageNum total =>
      by_cases hc : pageNum * s.itemsPerPage - total < s.itemsPerPage
      · rcases hf : s.fetch pageNum s.itemsPerPage with e | details
        · simp [pull, hc, hf]
        · rcases details with ⟨tc, rs⟩
          cases tc with
          | none => simp [pull, hc, hf]
          | some newTotal =>
            cases rs with
            | none => simp [pull, hc, hf]
            | some results => simpa [pull, hc, hf] using ih _
      · simp [pull, hc]
    | emitting pageNum total results index =>
      by_cases hi : index < results.length
      · simp [pull, hi]
      · simpa [pull, hi] using ih _

/-- A call recorded against the external authenticated HTTP transport
collaborator (Network in the source).  Bodies are the string-to-string dicts
the claims need. -/
inductive NetworkCall where
  | get : String → NetworkCall
  | patch : String → List (String × String) → NetworkCall
  | delete : String → NetworkCall
deriving DecidableEq

/-- Opaque parsed response handed back by the transport collaborator; the
resource layer returns it unmodified, so the model tags it with the call. -/
inductive HttpResponse where
  | response : NetworkCall → HttpResponse
deriving DecidableEq

/-- Transport GET: returns a parsed response and records one call. -/
def Network.get (url : String) : HttpResponse × List NetworkCall :=
  (.response (.get url), [.get url])

/-- Transport PATCH with a body: returns a parsed response and records one call. -/
def Network.patch (url : String) (body : List (String × String)) :
    HttpResponse × List NetworkCall :=
  (.response (.patch url body), [.patch url body])

/-- Transport DELETE: returns a parsed response and records one call. -/
def Network.delete (url : String) : HttpResponse × List NetworkCall :=
  (.response (.delete url), [.delete url])

/-- Typed errors of the resource layer that the claims mention:
ErrPaginationLimits and ErrConfirmationRequested from errors.py. -/
inductive AtlasError where
  | errPaginationLimits : AtlasError
  | errConfirmationRequested : String → AtlasError
deriving DecidableEq

/-- Modelled from the spec: Settings.BASE_URL from settings.py, which is not in
the source tree; the spec treats base-URL resolution as an external
collaborator, so the concrete value is irrelevant to every claim. -/
def BASE_URL : String := "https://cloud.mongodb.com"

/-- Modelled from the spec: the lower bound of the configured itemsPerPage
limits ([minimum, maximum] in spec section 3); settings.py is not in the
source tree and the spec does not name the numeric value. -/
def minPageSize : Int := 1

/-- Modelled from the spec: the upper bound of the configured itemsPerPage
limits; settings.py is not in the source tree and the spec does not name the
numeric value. -/
def maxPageSize : Int := 500

/-- Modelled from the spec: ErrPaginationLimits.checkAndRaise from errors.py,
which is not in the source tree.  Spec section 4.1: given pageNumber and
itemsPerPage, fails with a PaginationLimitsError if itemsPerPage is outside
the configured [minPageSize, maxPageSize] bound; pure, called before any
network activity. -/
def checkAndRaise (pageNum itemsPerPage : Int) : Except AtlasError Unit :=
  if itemsPerPage < minPageSize ∨ maxPageSize < itemsPerPage then
    .error .errPaginationLimits
  else .ok ()

/-- Modelled from the spec: the URL template
Settings.api_resources["Clusters"]["Get All Clusters"] applied to its three
positional parameters; URL-template resolution is an external collaborator. -/
def getAllClustersUri (group : String) (pageNum itemsPerPage : Int) : String :=
  "/api/atlas/v1.0/groups/" ++ group ++ "/clusters?pageNum=" ++ toString pageNum
    ++ "&itemsPerPage=" ++ toString itemsPerPage

/-- Modelled from the spec: the URL template for deleting one cluster. -/
def deleteAClusterUri (group cluster : String) : String :=
  "/api/atlas/v1.0/groups/" ++ group ++ "/clusters/" ++ cluster

/-- Modelled from the spec: the URL template for deleting one database user. -/
def deleteADatabaseUserUri (group user : String) : String :=
  "/api/atlas/v1.0/groups/" ++ group ++ "/databaseUsers/admin/" ++ user

/-- Modelled from the spec: the URL template for acknowledging one alert. -/
def acknowledgeAnAlertUri (group alert : String) : String :=
  "/api/atlas/v1.0/groups/" ++ group ++ "/alerts/" ++ alert

/-- Modelled from the spec: the URL template
Settings.api_resources["Alerts"]["Get All Alerts"]. -/
def getAllAlertsUri (group : String) (pageNum itemsPerPage : Int) : String :=
  "/api/atlas/v1.0/groups/" ++ group ++ "/alerts?pageNum=" ++ toString pageNum
    ++ "&itemsPerPage=" ++ toString itemsPerPage

/-- Modelled from the spec: the URL template
Settings.api_resources["Alerts"]["Get All Alerts with status"]; the alerts
binding applies the caller-supplied status as a fixed extra parameter. -/
def getAllAlertsWithStatusUri (group status : String) (pageNum itemsPerPage : Int) :
    String :=
  "/api/atlas/v1.0/groups/" ++ group ++ "/alerts?status=" ++ status
    ++ "&pageNum=" ++ toString pageNum ++ "&itemsPerPage=" ++ toString itemsPerPage

/-- What a get-all style operation hands back on success: either the iterable
pagination object built from the requested starting parameters (the iterable
branch performs no network call) or the raw payload of one direct GET. -/
inductive GetAllOutcome where
  | iterable : Int → Int → GetAllOutcome
  | payload : HttpResponse → GetAllOutcome
deriving DecidableEq

/-- Atlas._Clusters.get_all_clusters (atlas.py lines 84-109): check the
pagination limits first and raise ErrPaginationLimits on violation; then
either hand back the ClustersGetAll pagination object (iterable) or perform
exactly one GET on the resolved URL. -/
def get_all_clusters (group : String) (pageNum itemsPerPage : Int)
    (iterable : Bool) : Except AtlasError GetAllOutcome × List NetworkCall :=
  match checkAndRaise pageNum itemsPerPage with
  | .error e => (.error e, [])
  | .ok _ =>
    if iterable then (.ok (.iterable pageNum itemsPerPage), [])
    else
      let r := Network.get (BASE_URL ++ getAllClustersUri group pageNum itemsPerPage)
      (.ok (.payload r.1), r.2)

/-- Atlas._Clusters.delete_a_cluster (atlas.py lines 126-149): with
areYouSure=True perform exactly one DELETE; otherwise raise
ErrConfirmationRequested before any network call. -/
def delete_a_cluster (group cluster : String) (areYouSure : Bool) :
    Except AtlasError HttpResponse × List NetworkCall :=
  if areYouSure then
    let r := Network.delete (BASE_URL ++ deleteAClusterUri group cluster)
    (.ok r.1, r.2)
  else
    (.error (.errConfirmationRequested
      ("Please set areYouSure=True on delete_a_cluster call if you really want to delete ["
        ++ cluster ++ "]")), [])

/-- Atlas._DatabaseUsers.delete_a_database_user (atlas.py lines 325-338): the
source takes no confirmation flag and performs its DELETE unconditionally. -/
def delete_a_database_user (group user : String) :
    Except AtlasError HttpResponse × List NetworkCall :=
  let r := Network.delete (BASE_URL ++ deleteADatabaseUserUri group user)
  (.ok r.1, r.2)

/-- Python truthiness of the optional status argument: None and the empty
string are falsy, any other string is truthy. -/
def statusTruthy : Option String → Bool
  | none => false
  | some s => !(s == "")

/-- What get_all_alerts hands back on success: the AlertsGetAll pagination
object (which closes over the status filter) or the payload of one GET. -/
inductive AlertsGetAllOutcome where
  | iterable : Option String → Int → Int → AlertsGetAllOutcome
  | payload : HttpResponse → AlertsGetAllOutcome
deriving DecidableEq

/-- Atlas._Alerts.get_all_alerts (atlas.py lines 432-466): check limits, then
either hand back AlertsGetAll(atlas, status, pageNum, itemsPerPage) or perform
one GET, on the with-status URL when the status argument is truthy and on the
plain URL otherwise. -/
def get_all_alerts (group : String) (status : Option String)
    (pageNum itemsPerPage : Int) (iterable : Bool) :
    Except AtlasError AlertsGetAllOutcome × List NetworkCall :=
  match checkAndRaise pageNum itemsPerPage with
  | .error e => (.error e, [])
  | .ok _ =>
    if iterable then (.ok (.iterable status pageNum itemsPerPage), [])
    else if statusTruthy status then
      let r := Network.get (BASE_URL ++
        getAllAlertsWithStatusUri group (status.getD "") pageNum itemsPerPage)
      (.ok (.payload r.1), r.2)
    else
      let r := Network.get (BASE_URL ++ getAllAlertsUri group pageNum itemsPerPage)
      (.ok (.payload r.1), r.2)

/-- The AlertsGetAll pagination subclass (atlas.py lines 625-643): it stores
the caller-supplied status next to the bound get_all_alerts operation, which
is why its fetch member is an object method rather than a plain function
reference. -/
structure AlertsGetAll where
  group : String
  status : Option String
  pageNum : Int
  itemsPerPage : Int

/-- AlertsGetAll.fetch: the intermediate fetch the engine calls for each page;
it forwards the stored status to get_all_alerts together with the page
parameters (iterable defaults to False there). -/
def AlertsGetAll.fetch (self : AlertsGetAll) (pageNum itemsPerPage : Int) :
    Except AtlasError AlertsGetAllOutcome × List NetworkCall :=
  get_all_alerts self.group self.status pageNum itemsPerPage false

/-- A Python aware datetime in timezone.utc, as produced by
datetime.now(timezone.utc): calendar fields plus microseconds. -/
structure PyDateTime where
  year : Nat
  month : Nat
  day : Nat
  hour : Nat
  minute : Nat
  second : Nat
  microsecond : Nat
deriving DecidableEq

/-- Gregorian leap-year rule, as in calendar.isleap. -/
def isLeapYear (y : Nat) : Bool :=
  (y % 4 == 0 && y % 100 != 0) || (y % 400 == 0)

/-- calendar.monthrange(y, m)[1]: the number of days of month m, given the
leapness of the year. -/
def daysInMonth (leap : Bool) (m : Nat) : Nat :=
  match m with
  | 1 => 31
  | 2 => if leap then 29 else 28
  | 3 => 31
  | 4 => 30
  | 5 => 31
  | 6 => 30
  | 7 => 31
  | 8 => 31
  | 9 => 30
  | 10 => 31
  | 11 => 30
  | 12 => 31
  | _ => 0

/-- A value Python datetime can hold: year at least MINYEAR = 1, month in
1..12, day in 1..monthrange. -/
def PyDateTime.Valid (dt : PyDateTime) : Prop :=
  1 ≤ dt.year ∧ 1 ≤ dt.month ∧ dt.month ≤ 12 ∧ 1 ≤ dt.day ∧
    dt.day ≤ daysInMonth (isLeapYear dt.year) dt.month

instance (dt : PyDateTime) : Decidable dt.Valid := by
  unfold PyDateTime.Valid
  infer_instance

/-- dateutil relativedelta(years=n) addition: replace the year and clamp the
day to the length of the month in the new year (dateutil computes
day = min(calendar.monthrange(year, month)[1], dt.day)). -/
def addYears (dt : PyDateTime) (n : Nat) : PyDateTime :=
  let y := dt.year + n
  { dt with year := y, day := min dt.day (daysInMonth (isLeapYear y) dt.month) }

/-- now - relativedelta(days=1) on an aware UTC datetime: dateutil turns the
days component into timedelta(days=-1), which moves to the previous calendar
day with the clock time unchanged (UTC has no DST step). -/
def subOneDay (dt : PyDateTime) : PyDateTime :=
  if 2 ≤ dt.day then { dt with day := dt.day - 1 }
  else if 2 ≤ dt.month then
    { dt with month := dt.month - 1,
              day := daysInMonth (isLeapYear dt.year) (dt.month - 1) }
  else { dt with year := dt.year - 1, month := 12, day := 31 }

/-- Left-pad the decimal rendering of n with zeros to width w. -/
def zfill (w : Nat) (n : Nat) : String :=
  let s := toString n
  String.mk (List.replicate (w - s.length) (Char.ofNat 48)) ++ s

/-- datetime.isoformat(timespec='seconds') on an aware UTC value: the calendar
fields and the wall-clock time down to whole seconds (microseconds are
dropped), followed by the +00:00 UTC offset.  An absolute timestamp, not a
duration. -/
def isoformatSeconds (dt : PyDateTime) : String :=
  zfill 4 dt.year ++ "-" ++ zfill 2 dt.month ++ "-" ++ zfill 2 dt.day ++ "T" ++
    zfill 2 dt.hour ++ ":" ++ zfill 2 dt.minute ++ ":" ++ zfill 2 dt.second ++
    "+00:00"

/-- Atlas._Alerts.acknowledge_an_alert (atlas.py lines 480-502): build the
acknowledgedUntil field from untilDt.isoformat(timespec='seconds'), append the
comment field only when the comment is truthy, and perform one PATCH. -/
def acknowledge_an_alert (group alert : String) (untilDt : PyDateTime)
    (comment : Option String) : HttpResponse × List NetworkCall :=
  let base := [("acknowledgedUntil", isoformatSeconds untilDt)]
  let data :=
    match comment with
    | some c => if c = "" then base else base ++ [("acknowledgementComment", c)]
    | none => base
  Network.patch (BASE_URL ++ acknowledgeAnAlertUri group alert) data

/-- Atlas._Alerts.unacknowledge_an_alert (atlas.py lines 504-521): acknowledge
until now - relativedelta(days=1), where now = datetime.now(timezone.utc) is
the call time, passed here as an argument. -/
def unacknowledge_an_alert (group alert : String) (now : PyDateTime) :
    HttpResponse × List NetworkCall :=
  acknowledge_an_alert group alert (subOneDay now) none

/-- Atlas._Alerts.acknowledge_an_alert_forever (atlas.py lines 523-541):
acknowledge until now + relativedelta(years=100), where
now = datetime.now(timezone.utc) is the call time, passed here as an argument. -/
def acknowledge_an_alert_forever (group alert : String) (now : PyDateTime)
    (comment : Option String) : HttpResponse × List NetworkCall :=
  acknowledge_an_alert group alert (addYears now 100) comment

/-- Number of leap years strictly below y. -/
def leapsBefore : Nat → Nat
  | 0 => 0
  | y + 1 => leapsBefore y + (if isLeapYear y then 1 else 0)

/-- Days of the year strictly before month m (cumulative month lengths). -/
def daysBeforeMonth (leap : Bool) (m : Nat) : Nat :=
  (match m with
   | 1 => 0
   | 2 => 31
   | 3 => 59
   | 4 => 90
   | 5 => 120
   | 6 => 151
   | 7 => 181
   | 8 => 212
   | 9 => 243
   | 10 => 273
   | 11 => 304
   | 12 => 334
   | _ => 365) + (if leap && decide (3 ≤ m) then 1 else 0)

/-- Absolute day number of a calendar date: days contributed by whole years,
by whole months of the current year, and the day of month.  Consecutive
calendar days get consecutive numbers. -/
def rataDie (y m d : Nat) : Nat :=
  365 * y + leapsBefore y + daysBeforeMonth (isLeapYear y) m + d

lemma daysBeforeMonth_step (l : Bool) (m : Nat) (h2 : 2 ≤ m) (h12 : m ≤ 12) :
    daysBeforeMonth l (m - 1) + daysInMonth l (m - 1) = daysBeforeMonth l m := by
  interval_cases m <;> cases l <;> decide

lemma subOneDay_rataDie (dt : PyDateTime) (hv : dt.Valid) :
    rataDie (subOneDay dt).year (subOneDay dt).month (subOneDay dt).day + 1 =
      rataDie dt.year dt.month dt.day := by
  obtain ⟨hy, hm1, hm12, hd1, hdM⟩ := hv
  by_cases hd : 2 ≤ dt.day
  · simp only [subOneDay, if_pos hd, rataDie]
    omega
  · by_cases hm : 2 ≤ dt.month
    · have hstep := daysBeforeMonth_step (isLeapYear dt.year) dt.month hm hm12
      simp only [subOneDay, if_neg hd, if_pos hm, rataDie]
      omega
    · have hmeq : dt.month = 1 := by omega
      have hdeq : dt.day = 1 := by omega
      obtain ⟨k, hk⟩ : ∃ k, dt.year = k + 1 := ⟨dt.year - 1, by omega⟩
      simp only [subOneDay, if_neg hd, if_neg hm, rataDie, hmeq, hdeq, hk]
      rcases hb : isLeapYear k <;>
        simp [leapsBefore, daysBeforeMonth, hb] <;> omega

lemma subOneDay_time (dt : PyDateTime) :
    (subOneDay dt).hour = dt.hour ∧ (subOneDay dt).minute = dt.minute ∧
      (subOneDay dt).second = dt.second := by
  unfold subOneDay
  split_ifs <;> exact ⟨rfl, rfl, rfl⟩

lemma day_le_daysInMonth_any (l l2 : Bool) (m d : Nat) (h1 : 1 ≤ m)
    (h12 : m ≤ 12) (hd : d ≤ daysInMonth l m) (hfeb : ¬(m = 2 ∧ d = 29)) :
    d ≤ daysInMonth l2 m := by
  interval_cases m <;> cases l <;> cases l2 <;> simp_all [daysInMonth] <;> omega

lemma addYears_eq (dt : PyDateTime) (n : Nat) (hv : dt.Valid)
    (hfeb : ¬(dt.month = 2 ∧ dt.day = 29)) :
    addYears dt n = { dt with year := dt.year + n } := by
  obtain ⟨hy, hm1, hm12, hd1, hdM⟩ := hv
  have hday : min dt.day (daysInMonth (isLeapYear (dt.year + n)) dt.month) = dt.day :=
    Nat.min_eq_left (day_le_daysInMonth_any _ _ _ _ hm1 hm12 hdM hfeb)
  simp only [addYears, hday]

/-- Fetching the comment-dependent tail of the forever-acknowledgement PATCH
body: the acknowledgedUntil field always comes first and holds the isoformat
of now + relativedelta(years=100). -/
lemma forever_body (group alert : String) (comment : Option String)
    (now : PyDateTime) :
    ∃ rest, (acknowledge_an_alert_forever group alert now comment).2 =
      [NetworkCall.patch (BASE_URL ++ acknowledgeAnAlertUri group alert)
        (("acknowledgedUntil", isoformatSeconds (addYears now 100)) :: rest)] := by
  rcases comment with _ | c
  · exact ⟨[], by simp [acknowledge_an_alert_forever, acknowledge_an_alert,
      Network.patch]⟩
  · by_cases hc : c = ""
    · exact ⟨[], by simp [acknowledge_an_alert_forever, acknowledge_an_alert,
        Network.patch, hc]⟩
    · exact ⟨[("acknowledgementComment", c)],
        by simp [acknowledge_an_alert_forever, acknowledge_an_alert,
          Network.patch, hc]⟩

/-- C6 counterexample: at the call time 2000-02-29 12:00:00 UTC the forever
acknowledgement sends 2100-02-28T12:00:00+00:00 — the day is clamped to the
length of February 2100, a non-leap year — and not the call time with the year
advanced by 100, whose rendering would keep day 29.  So the sent timestamp is
not exactly 100 years after the call time. -/
theorem forever_feb29_counterexample :
    (acknowledge_an_alert_forever "g" "a" ⟨2000, 2, 29, 12, 0, 0, 0⟩ none).2 =
      [NetworkCall.patch (BASE_URL ++ acknowledgeAnAlertUri "g" "a")
        [("acknowledgedUntil", isoformatSeconds ⟨2100, 2, 28, 12, 0, 0, 0⟩)]]
    ∧ isoformatSeconds ⟨2100, 2, 28, 12, 0, 0, 0⟩ ≠
        isoformatSeconds ⟨2100, 2, 29, 12, 0, 0, 0⟩ := by
  constructor
  · rfl
  · decide

/-- C6 amended: every forever-acknowledgement sends, as the acknowledgedUntil
value of its single PATCH, an absolute UTC timestamp truncated to whole
seconds: for call times not on February 29 it is exactly the call time with
the year advanced by 100; for call times on February 29 the day is clamped to
the length of February in the target year (the 28th when that year is not
leap).  Every unacknowledge sends the absolute UTC timestamp of exactly one
calendar day before the call time (same wall-clock time, consecutive day
numbers).  The rendering ignores the microsecond field entirely, and both
timestamps are absolute values, never relative durations. -/
theorem alert_ack_timestamps_amended (group alert : String)
    (comment : Option String) (now : PyDateTime) (hv : now.Valid) :
    (¬(now.month = 2 ∧ now.day = 29) →
      ∃ rest,
        (acknowledge_an_alert_forever group alert now comment).2 =
          [NetworkCall.patch (BASE_URL ++ acknowledgeAnAlertUri group alert)
            (("acknowledgedUntil",
               isoformatSeconds { now with year := now.year + 100 }) :: rest)])
    ∧ (now.month = 2 ∧ now.day = 29 →
      ∃ rest,
        (acknowledge_an_alert_forever group alert now comment).2 =
          [NetworkCall.patch (BASE_URL ++ acknowledgeAnAlertUri group alert)
            (("acknowledgedUntil",
               isoformatSeconds
                 { now with
                     year := now.year + 100
                     day := daysInMonth (isLeapYear (now.year + 100)) 2 }) :: rest)])
    ∧ (∃ dt : PyDateTime,
        (unacknowledge_an_alert group alert now).2 =
          [NetworkCall.patch (BASE_URL ++ acknowledgeAnAlertUri group alert)
            [("acknowledgedUntil", isoformatSeconds dt)]]
        ∧ rataDie dt.year dt.month dt.day + 1 =
            rataDie now.year now.month now.day
        ∧ dt.hour = now.hour ∧ dt.minute = now.minute ∧ dt.second = now.second)
    ∧ (∀ micro : Nat,
        isoformatSeconds { now with microsecond := micro } =
          isoformatSeconds now) := by
  refine ⟨?_, ?_, ?_, fun micro => rfl⟩
  · intro hfeb
    have ha : addYears now 100 = { now with year := now.year + 100 } :=
      addYears_eq now 100 hv hfeb
    obtain ⟨rest, hrest⟩ := forever_body group alert comment now
    rw [ha] at hrest
    exact ⟨rest, hrest⟩
  · intro hfeb29
    obtain ⟨hm, hd⟩ := hfeb29
    have hle : daysInMonth (isLeapYear (now.year + 100)) 2 ≤ 29 := by
      cases hb : isLeapYear (now.year + 100) <;> simp [daysInMonth]
    have ha : addYears now 100 =
        { now with
            year := now.year + 100
            day := daysInMonth (isLeapYear (now.year + 100)) 2 } := by
      simp only [addYears, hm, hd, Nat.min_eq_right hle]
    obtain ⟨rest, hrest⟩ := forever_body group alert comment now
    rw [ha] at hrest
    exact ⟨rest, hrest⟩
  · exact ⟨subOneDay now,
      by simp [unacknowledge_an_alert, acknowledge_an_alert, Network.patch],
      subOneDay_rataDie now hv, (subOneDay_time now).1,
      (subOneDay_time now).2.1, (subOneDay_time now).2.2⟩

/-- C6 witness for the amended claim: an ordinary call time 2018-06-15
12:30:45.123456 UTC gives the year advanced by exactly 100, and the leap-day
call time 2000-02-29 12:00:00 UTC gives the clamped 2100-02-28. -/
theorem alert_ack_timestamps_amended_witness :
    (∃ rest,
      (acknowledge_an_alert_forever "g" "a" ⟨2018, 6, 15, 12, 30, 45, 123456⟩
          (some "note")).2 =
        [NetworkCall.patch (BASE_URL ++ acknowledgeAnAlertUri "g" "a")
          (("acknowledgedUntil",
             isoformatSeconds ⟨2118, 6, 15, 12, 30, 45, 123456⟩) :: rest)])
    ∧ (∃ rest,
      (acknowledge_an_alert_forever "g" "a" ⟨2000, 2, 29, 12, 0, 0, 0⟩ none).2 =
        [NetworkCall.patch (BASE_URL ++ acknowledgeAnAlertUri "g" "a")
          (("acknowledgedUntil",
             isoformatSeconds ⟨2100, 2, 28, 12, 0, 0, 0⟩) :: rest)])
    ∧ (∃ dt : PyDateTime,
        (unacknowledge_an_alert "g" "a" ⟨2018, 6, 15, 12, 30, 45, 123456⟩).2 =
          [NetworkCall.patch (BASE_URL ++ acknowledgeAnAlertUri "g" "a")
            [("acknowledgedUntil", isoformatSeconds dt)]]
        ∧ rataDie dt.year dt.month dt.day + 1 = rataDie 2018 6 15
        ∧ dt.hour = 12 ∧ dt.minute = 30 ∧ dt.second = 45) :=
  ⟨(alert_ack_timestamps_amended "g" "a" (some "note")
      ⟨2018, 6, 15, 12, 30, 45, 123456⟩ (by decide)).1 (by decide),
   (alert_ack_timestamps_amended "g" "a" none
      ⟨2000, 2, 29, 12, 0, 0, 0⟩ (by decide)).2.1 (by decide),
   (alert_ack_timestamps_amended "g" "a" (some "note")
      ⟨2018, 6, 15, 12, 30, 45, 123456⟩ (by decide)).2.2.1⟩


/-- C4 counterexample: a database-user delete — which in the source takes no
confirmation flag at all — performs one network call against the transport and
raises no error, contradicting the claim that it raises
ErrConfirmationRequested with zero network calls. -/
theorem delete_user_unguarded_counterexample :
    (delete_a_database_user "gid" "usr").2 =
      [NetworkCall.delete (BASE_URL ++ deleteADatabaseUserUri "gid" "usr")]
    ∧ (delete_a_database_user "gid" "usr").1 =
        .ok (.response (.delete (BASE_URL ++ deleteADatabaseUserUri "gid" "usr"))) :=
  ⟨rfl, rfl⟩

/-- C4 amended: cluster deletes invoked without areYouSure raise
ErrConfirmationRequested and record zero transport calls; database-user
deletes, by contrast, take no confirmation flag and perform their single
DELETE unconditionally. -/
theorem deletion_guard_amended :
    (∀ group cluster : String,
      delete_a_cluster group cluster false =
        (.error (.errConfirmationRequested
          ("Please set areYouSure=True on delete_a_cluster call if you really want to delete ["
            ++ cluster ++ "]")), []))
    ∧ (∀ group user : String,
        (delete_a_database_user group user).2 =
          [NetworkCall.delete (BASE_URL ++ deleteADatabaseUserUri group user)]
        ∧ (delete_a_database_user group user).1 =
            .ok (.response (.delete (BASE_URL ++ deleteADatabaseUserUri group user)))) :=
  ⟨fun _ _ => rfl, fun _ _ => ⟨rfl, rfl⟩⟩

/-- C5: with itemsPerPage outside the configured bounds, a clusters list
request — iterable or direct — fails with ErrPaginationLimits and records zero
transport calls: the validator runs synchronously before any network
activity. -/
theorem pagination_limits_preflight (group : String) (pageNum itemsPerPage : Int)
    (iterable : Bool)
    (h : itemsPerPage < minPageSize ∨ maxPageSize < itemsPerPage) :
    get_all_clusters group pageNum itemsPerPage iterable =
      (.error .errPaginationLimits, []) := by
  unfold get_all_clusters checkAndRaise
  rw [if_pos h]

/-- C5 witness: itemsPerPage = 501 exceeds the upper bound, for both the
iterable and the direct form of the call. -/
theorem pagination_limits_preflight_witness :
    get_all_clusters "g" 1 501 true = (.error .errPaginationLimits, [])
    ∧ get_all_clusters "g" 1 501 false = (.error .errPaginationLimits, []) :=
  ⟨pagination_limits_preflight "g" 1 501 true (by decide),
   pagination_limits_preflight "g" 1 501 false (by decide)⟩

/-- C8: every page fetch made through an AlertsGetAll object whose stored
status filter is a truthy string issues exactly one GET whose URL applies that
same stored status, whatever the page number: the filter is a fixed extra
parameter, unchanged across all pages of the traversal. -/
theorem alerts_fetch_carries_status (self : AlertsGetAll) (s : String)
    (pageNum itemsPerPage : Int) (hs : self.status = some s) (hne : s ≠ "")
    (hmin : minPageSize ≤ itemsPerPage) (hmax : itemsPerPage ≤ maxPageSize) :
    self.fetch pageNum itemsPerPage =
      (.ok (.payload (.response (.get (BASE_URL ++
          getAllAlertsWithStatusUri self.group s pageNum itemsPerPage)))),
       [NetworkCall.get (BASE_URL ++
          getAllAlertsWithStatusUri self.group s pageNum itemsPerPage)]) := by
  unfold AlertsGetAll.fetch get_all_alerts checkAndRaise
  rw [if_neg (not_or.mpr ⟨not_lt.mpr hmin, not_lt.mpr hmax⟩)]
  simp [hs, statusTruthy, hne, Network.get]

/-- C8 witness: an object storing status OPEN, fetching page 3 with 100 items
per page, issues the GET carrying status=OPEN. -/
theorem alerts_fetch_carries_status_witness :
    AlertsGetAll.fetch ⟨"g", some "OPEN", 1, 100⟩ 3 100 =
      (.ok (.payload (.response (.get (BASE_URL ++
          getAllAlertsWithStatusUri "g" "OPEN" 3 100)))),
       [NetworkCall.get (BASE_URL ++ getAllAlertsWithStatusUri "g" "OPEN" 3 100)]) :=
  alerts_fetch_carries_status ⟨"g", some "OPEN", 1, 100⟩ "OPEN" 3 100 rfl
    (by decide) (by decide) (by decide)

/-- C9: because the local total is seeded to pageNum * itemsPerPage, the first
while-condition test reads 0 < itemsPerPage and passes whatever the starting
page number is, so the first page fetch is performed unconditionally: every
traversal with positive itemsPerPage makes at least one fetch call, and on an
empty collection (totalCount 0, empty results) a traversal starting at any
page number at least 1 makes exactly one fetch call and yields nothing. -/
theorem first_fetch_unconditional :
    (∀ (α ε Item : Type) (a : α) (fetch : Int → Int → Except ε (RawPage Item))
        (pageNum itemsPerPage : Int) (fuel : Nat), 1 ≤ itemsPerPage →
        1 ≤ (AtlasPagination.iter ⟨a, fetch, pageNum, itemsPerPage⟩
              (fuel + 1)).fetchCalls)
    ∧ (∀ (α Item : Type) (a : α) (pageNum itemsPerPage : Int) (fuel : Nat),
        1 ≤ pageNum → 1 ≤ itemsPerPage →
        AtlasPagination.iter
          (⟨a, fun _ _ => .ok ⟨some 0, some []⟩, pageNum, itemsPerPage⟩ :
            AtlasPagination α Unit Item) (fuel + 2) = ⟨[], 1, .done⟩) := by
  constructor
  · intro α ε Item a fetch pageNum ipp fuel h
    have hc : pageNum * ipp - pageNum * ipp < ipp := by rw [sub_self]; omega
    show 1 ≤ (iterAux fetch ipp (fuel + 1) pageNum (pageNum * ipp)).fetchCalls
    simp only [iterAux, if_pos hc]
    rcases hf : fetch pageNum ipp with e | ⟨tc, rs⟩
    · simp
    · rcases tc with _ | t <;> rcases rs with _ | rs <;> simp <;> omega
  · intro α Item a pageNum ipp fuel hpn h
    have hc : pageNum * ipp - pageNum * ipp < ipp := by rw [sub_self]; omega
    have hmul : (pageNum + 1) * ipp = pageNum * ipp + ipp := by ring
    have hnn : 0 ≤ pageNum * ipp := mul_nonneg (by omega) (by omega)
    have hstop : ¬((pageNum + 1) * ipp - 0 < ipp) := by
      rw [hmul]
      generalize pageNum * ipp = t at hnn ⊢
      omega
    show iterAux _ ipp (fuel + 2) pageNum (pageNum * ipp) = ⟨[], 1, .done⟩
    rw [iterAux_page _ ipp (fuel + 1) pageNum (pageNum * ipp) 0 [] hc rfl,
      iterAux_stop _ ipp fuel (pageNum + 1) 0 hstop]
    simp

/-- C9 witness: any fetch binding is called at least once (here one that always
fails), and the empty collection starting at page 1 with 5 items per page
gives one fetch call and zero items. -/
theorem first_fetch_unconditional_witness :
    1 ≤ (AtlasPagination.iter
          (⟨(), fun _ _ => .error (), 1, 5⟩ : AtlasPagination Unit Unit Nat)
          1).fetchCalls
    ∧ AtlasPagination.iter
        (⟨(), fun _ _ => .ok ⟨some 0, some []⟩, 1, 5⟩ :
          AtlasPagination Unit Unit Nat) 2 = ⟨[], 1, .done⟩ :=
  ⟨first_fetch_unconditional.1 Unit Unit Nat () (fun _ _ => .error ()) 1 5 0
      (by decide),
   first_fetch_unconditional.2 Unit Nat () 1 5 0 (by decide) (by decide)⟩

/-- C2: when the fetch binding succeeds on page 1 with a totalCount that
promises more pages and fails with any error on page 2, the traversal yields
exactly the page-1 items in order, makes exactly the two fetch calls, and ends
with the single ErrPagination; and once the generator has raised, every
further next() returns StopIteration without items, fetch calls, or state
change. -/
theorem failure_on_page_two (α ε Item : Type) (a : α)
    (fetch : Int → Int → Except ε (RawPage Item)) (ipp t : Int)
    (rs : List Item) (e : ε) (h1 : 1 ≤ ipp) (h2 : ipp < t)
    (hp1 : fetch 1 ipp = .ok ⟨some t, some rs⟩)
    (hp2 : fetch 2 ipp = .error e) (fuel : Nat) :
    AtlasPagination.iter ⟨a, fetch, 1, ipp⟩ (fuel + 2) =
      ⟨rs, 2, .failed .errPagination⟩
    ∧ ∀ (g : Gen α ε Item) (fuel2 : Nat), g.ctl = .raised →
        pull (fuel2 + 1) g = ⟨g, 0, .stop⟩ := by
  constructor
  · have hc1 : 1 * ipp - 1 * ipp < ipp := by omega
    have hc2 : ((1 : Int) + 1) * ipp - t < ipp := by omega
    have hp2a : fetch ((1 : Int) + 1) ipp = .error e := by
      rw [show ((1 : Int) + 1) = 2 by norm_num]
      exact hp2
    show iterAux fetch ipp (fuel + 2) 1 (1 * ipp) = ⟨rs, 2, .failed .errPagination⟩
    rw [iterAux_page fetch ipp (fuel + 1) 1 (1 * ipp) t rs hc1 hp1,
      iterAux_error fetch ipp fuel (1 + 1) t e hc2 hp2a]
    simp
  · intro g fuel2 hg
    simp [pull, hg]

/-- C2 witness: itemsPerPage 2, totalCount 3, page 1 holds [10, 11], page 2
raises; the traversal trace is exactly those two items, two fetch calls, one
ErrPagination; and a raised generator answers one further pull with a bare
stop. -/
theorem failure_on_page_two_witness :
    AtlasPagination.iter
      (⟨(), fun p _ => if p = 1 then .ok ⟨some 3, some [10, 11]⟩ else .error (),
        1, 2⟩ : AtlasPagination Unit Unit Nat) 2 =
      ⟨[10, 11], 2, .failed .errPagination⟩
    ∧ pull 1
        (⟨⟨(), fun p _ => if p = 1 then .ok ⟨some 3, some [10, 11]⟩ else .error (),
           1, 2⟩, .raised⟩ : Gen Unit Unit Nat) =
      ⟨⟨⟨(), fun p _ => if p = 1 then .ok ⟨some 3, some [10, 11]⟩ else .error (),
         1, 2⟩, .raised⟩, 0, .stop⟩ :=
  ⟨(failure_on_page_two Unit Unit Nat ()
      (fun p _ => if p = 1 then .ok ⟨some 3, some [10, 11]⟩ else .error ())
      2 3 [10, 11] () (by decide) (by decide) rfl rfl 0).1,
   (failure_on_page_two Unit Unit Nat ()
      (fun p _ => if p = 1 then .ok ⟨some 3, some [10, 11]⟩ else .error ())
      2 3 [10, 11] () (by decide) (by decide) rfl rfl 0).2 _ 0 rfl⟩

/-- C3 counterexample: a fetch that returns successfully but whose payload
lacks the totalCount key makes the traversal fail with the raw KeyError of the
dict subscript — which sits outside the try block — and not with
ErrPagination, contradicting the claim that malformed page payloads also
collapse to the single PaginationError kind. -/
theorem malformed_payload_counterexample :
    AtlasPagination.iter
      (⟨(), fun _ _ => .ok ⟨none, none⟩, 1, 5⟩ : AtlasPagination Unit Unit Nat) 1 =
      ⟨[], 1, .failed (.keyError "totalCount")⟩
    ∧ Outcome.failed (.keyError "totalCount") ≠ .failed .errPagination := by
  exact ⟨by decide, by decide⟩

/-- C3 amended: an error raised by the fetch call itself is collapsed to the
single ErrPagination whatever its underlying type (the bare except discards
it); but a payload the fetch returns successfully that is missing totalCount,
or missing results, makes the traversal fail with the field lookup KeyError,
not with ErrPagination. -/
theorem fetch_failures_collapse_amended :
    (∀ (ε Item : Type) (fetch : Int → Int → Except ε (RawPage Item))
        (ipp p t : Int) (e : ε) (fuel : Nat),
        p * ipp - t < ipp → fetch p ipp = .error e →
        iterAux fetch ipp (fuel + 1) p t = ⟨[], 1, .failed .errPagination⟩)
    ∧ (∀ (ε Item : Type) (fetch : Int → Int → Except ε (RawPage Item))
        (ipp p t : Int) (r : Option (List Item)) (fuel : Nat),
        p * ipp - t < ipp → fetch p ipp = .ok ⟨none, r⟩ →
        iterAux fetch ipp (fuel + 1) p t = ⟨[], 1, .failed (.keyError "totalCount")⟩)
    ∧ (∀ (ε Item : Type) (fetch : Int → Int → Except ε (RawPage Item))
        (ipp p t t2 : Int) (fuel : Nat),
        p * ipp - t < ipp → fetch p ipp = .ok ⟨some t2, none⟩ →
        iterAux fetch ipp (fuel + 1) p t = ⟨[], 1, .failed (.keyError "results")⟩) :=
  ⟨fun _ _ fetch ipp p t e fuel hc hf => iterAux_error fetch ipp fuel p t e hc hf,
   fun _ _ fetch ipp p t r fuel hc hf => iterAux_noTotal fetch ipp fuel p t r hc hf,
   fun _ _ fetch ipp p t t2 fuel hc hf => iterAux_noResults fetch ipp fuel p t t2 hc hf⟩

/-- C3 witness for the amended claim: a raising fetch gives ErrPagination, a
payload with no totalCount gives KeyError on totalCount, and a payload with
totalCount but no results gives KeyError on results. -/
theorem fetch_failures_collapse_amended_witness :
    iterAux (fun _ _ => (.error () : Except Unit (RawPage Nat))) 5 1 1 5 =
      ⟨[], 1, .failed .errPagination⟩
    ∧ iterAux (fun _ _ => (.ok ⟨none, some []⟩ : Except Unit (RawPage Nat))) 5 1 1 5 =
      ⟨[], 1, .failed (.keyError "totalCount")⟩
    ∧ iterAux (fun _ _ => (.ok ⟨some 7, none⟩ : Except Unit (RawPage Nat))) 5 1 1 5 =
      ⟨[], 1, .failed (.keyError "results")⟩ :=
  ⟨fetch_failures_collapse_amended.1 Unit Nat _ 5 1 5 () 0 (by decide) rfl,
   fetch_failures_collapse_amended.2.1 Unit Nat _ 5 1 5 (some []) 0 (by decide) rfl,
   fetch_failures_collapse_amended.2.2 Unit Nat _ 5 1 5 7 0 (by decide) rfl⟩

/-- C7: once the outer while condition pageNum * itemsPerPage - total <
itemsPerPage fails, the generator returns and is closed; a pull on a closed
generator yields no item, makes no fetch call, and leaves the generator
closed, so every further pull does the same. -/
theorem exhausted_idempotent :
    (∀ (α ε Item : Type) (g : Gen α ε Item) (fuel : Nat), g.ctl = .closed →
        pull (fuel + 1) g = ⟨g, 0, .stop⟩)
    ∧ (∀ (α ε Item : Type) (g : Gen α ε Item) (fuel : Nat) (p t : Int),
        g.ctl = .atLoop p t →
        ¬(p * g.self.itemsPerPage - t < g.self.itemsPerPage) →
        pull (fuel + 1) g = ⟨{ g with ctl := .closed }, 0, .stop⟩) := by
  constructor
  · intro α ε Item g fuel hg
    simp [pull, hg]
  · intro α ε Item g fuel p t hg hc
    simp [pull, hg, hc]

/-- C7 witness: a traversal object whose loop condition fails at page 2 with
total 5 and 5 items per page closes, and a pull on the closed generator is a
bare stop leaving everything unchanged. -/
theorem exhausted_idempotent_witness :
    pull 1 (⟨⟨(), fun _ _ => .ok ⟨some 5, some [0, 1, 2, 3, 4]⟩, 1, 5⟩, .closed⟩ :
        Gen Unit Unit Nat) =
      ⟨⟨⟨(), fun _ _ => .ok ⟨some 5, some [0, 1, 2, 3, 4]⟩, 1, 5⟩, .closed⟩, 0, .stop⟩
    ∧ pull 1 (⟨⟨(), fun _ _ => .ok ⟨some 5, some [0, 1, 2, 3, 4]⟩, 1, 5⟩,
          .atLoop 2 5⟩ : Gen Unit Unit Nat) =
      ⟨⟨⟨(), fun _ _ => .ok ⟨some 5, some [0, 1, 2, 3, 4]⟩, 1, 5⟩, .closed⟩, 0, .stop⟩ :=
  ⟨exhausted_idempotent.1 Unit Unit Nat _ 0 rfl,
   exhausted_idempotent.2 Unit Unit Nat _ 0 2 5 rfl (by decide)⟩

/-- C10: a pull never changes the stored object fields (atlas, fetch, pageNum,
itemsPerPage all sit in the self component, which is carried through every
step unchanged), and a fresh iteration of the object left behind by any run
coincides with a fresh iteration of the original object: it restarts from the
construction-time pageNum and itemsPerPage. -/
theorem iteration_leaves_object_unchanged :
    (∀ (α ε Item : Type) (fuel : Nat) (g : Gen α ε Item),
        (pull fuel g).gen.self = g.self)
    ∧ (∀ (α ε Item : Type) (fuel : Nat) (g : Gen α ε Item) (fuel2 : Nat),
        pull fuel2 ⟨(pull fuel g).gen.self, .start⟩ = pull fuel2 ⟨g.self, .start⟩) := by
  refine ⟨fun α ε Item fuel g => pull_self_eq fuel g, ?_⟩
  intro α ε Item fuel g fuel2
  rw [pull_self_eq]

/-- One page of a collection as sliced by the Atlas API: page p of size i holds
the elements at positions (p - 1) * i up to p * i (exclusive). -/
def pageSlice {Item : Type} (L : List Item) (pageNum itemsPerPage : Int) :
    List Item :=
  (L.drop (((pageNum - 1) * itemsPerPage).toNat)).take itemsPerPage.toNat

/-- A fetch binding that reports a constant totalCount (the collection length)
and returns the items of the collection partitioned into successive pages.  It
never fails, which the empty error type records. -/
def pagedFetch {Item : Type} (L : List Item) :
    Int → Int → Except Empty (RawPage Item) :=
  fun pageNum itemsPerPage =>
    .ok ⟨some (L.length : Int), some (pageSlice L pageNum itemsPerPage)⟩

/-- Number of pages needed for rem remaining items at ipp items per page
(ceiling division). -/
def pagesLeft (ipp rem : Nat) : Nat := (rem + (ipp - 1)) / ipp

lemma int_cond_iff (p ipp t : Nat) :
    ((p : Int) * (ipp : Int) - (t : Int) < (ipp : Int)) ↔ p * ipp < ipp + t := by
  rw [sub_lt_iff_lt_add]
  norm_cast

lemma pageSlice_natCast {Item : Type} (L : List Item) (p ipp : Nat) (hp : 1 ≤ p) :
    pageSlice L (p : Int) (ipp : Int) = (L.drop ((p - 1) * ipp)).take ipp := by
  unfold pageSlice
  have h1 : (((p : Int) - 1) * (ipp : Int)).toNat = (p - 1) * ipp := by
    have h2 : ((p : Int) - 1) * (ipp : Int) = (((p - 1) * ipp : Nat) : Int) := by
      push_cast [Nat.cast_sub hp]
      ring
    rw [h2]
    omega
  have h3 : ((ipp : Int)).toNat = ipp := by omega
  rw [h1, h3]

lemma pagesLeft_zero (ipp : Nat) (h : 1 ≤ ipp) : pagesLeft ipp 0 = 0 := by
  unfold pagesLeft
  exact Nat.div_eq_of_lt (by omega)

lemma pagesLeft_step (ipp r : Nat) (hipp : 1 ≤ ipp) (hr : 1 ≤ r) :
    pagesLeft ipp r = 1 + pagesLeft ipp (r - ipp) := by
  unfold pagesLeft
  by_cases hle : r ≤ ipp
  · have h0 : r - ipp = 0 := by omega
    rw [h0]
    have hL : (r + (ipp - 1)) / ipp = 1 := Nat.div_eq_of_lt_le (by omega) (by omega)
    have hR : (0 + (ipp - 1)) / ipp = 0 := Nat.div_eq_of_lt (by omega)
    omega
  · have h2 : r + (ipp - 1) = (r - ipp + (ipp - 1)) + 1 * ipp := by omega
    rw [h2, Nat.add_mul_div_right _ _ (by omega : 0 < ipp)]
    omega

lemma pagesTotal_eq (ipp n : Nat) (h : 1 ≤ ipp) :
    1 + pagesLeft ipp (n - ipp) = max 1 ((n + ipp - 1) / ipp) := by
  by_cases hn : n ≤ ipp
  · have h0 : n - ipp = 0 := by omega
    rw [h0, pagesLeft_zero ipp h]
    have hx : (n + ipp - 1) / ipp < 2 := by
      rw [Nat.div_lt_iff_lt_mul (by omega : 0 < ipp)]
      omega
    omega
  · unfold pagesLeft
    have e1 : (n - ipp) + (ipp - 1) = n - 1 := by omega
    rw [e1]
    have e2 : n + ipp - 1 = (n - 1) + ipp := by omega
    rw [e2, Nat.add_div_right _ (by omega : 0 < ipp)]
    rw [Nat.max_eq_right (Nat.le_add_left 1 ((n - 1) / ipp))]
    exact Nat.add_comm 1 ((n - 1) / ipp)

lemma iterAux_pagedFetch {Item : Type} (L : List Item) (ipp : Nat)
    (hipp : 1 ≤ ipp) :
    ∀ (k p : Nat), 2 ≤ p → L.length + ipp ≤ (p + k) * ipp →
      iterAux (pagedFetch L) (ipp : Int) (k + 1) (p : Int) (L.length : Int) =
        ⟨L.drop ((p - 1) * ipp), pagesLeft ipp (L.length - (p - 1) * ipp), .done⟩ := by
  intro k
  induction k with
  | zero =>
    intro p hp hfuel
    have hple : L.length + ipp ≤ p * ipp := by simpa using hfuel
    have e1 : p * ipp = (p - 1) * ipp + ipp := by
      cases p with
      | zero => omega
      | succ q => simp [Nat.succ_sub_one, Nat.succ_mul]
    have hcond : ¬((p : Int) * (ipp : Int) - (L.length : Int) < (ipp : Int)) := by
      rw [int_cond_iff]
      omega
    rw [iterAux_stop _ _ 0 _ _ hcond]
    have hge : L.length ≤ (p - 1) * ipp := by omega
    have hz : L.length - (p - 1) * ipp = 0 := by omega
    rw [List.drop_eq_nil_of_le hge, hz, pagesLeft_zero ipp hipp]
  | succ k ih =>
    intro p hp hfuel
    have hp1 : 1 ≤ p := by omega
    have e1 : p * ipp = (p - 1) * ipp + ipp := by
      cases p with
      | zero => omega
      | succ q => simp [Nat.succ_sub_one, Nat.succ_mul]
    by_cases hcond : ((p : Int) * (ipp : Int) - (L.length : Int) < (ipp : Int))
    · have hlt : (p - 1) * ipp < L.length := by
        rw [int_cond_iff] at hcond
        omega
      have hfetch : pagedFetch L (p : Int) (ipp : Int) =
          .ok ⟨some (L.length : Int), some ((L.drop ((p - 1) * ipp)).take ipp)⟩ := by
        unfold pagedFetch
        rw [pageSlice_natCast L p ipp hp1]
      rw [iterAux_page _ _ (k + 1) _ _ _ _ hcond hfetch]
      have hcast : ((p : Int) + 1) = ((p + 1 : Nat) : Int) := by
        push_cast
        ring
      rw [hcast]
      have hfuel2 : L.length + ipp ≤ ((p + 1) + k) * ipp := by
        have hpk : (p + 1) + k = p + (k + 1) := by omega
        rw [hpk]
        exact hfuel
      rw [ih (p + 1) (by omega) hfuel2]
      have e2 : (p + 1 - 1) * ipp = (p - 1) * ipp + ipp := by
        have : p + 1 - 1 = p := by omega
        rw [this]
        omega
      dsimp only
      simp only [Trace.mk.injEq]
      refine ⟨?_, ?_, trivial⟩
      · rw [e2, ← List.drop_drop, List.take_append_drop]
      · rw [e2]
        have hsub : L.length - ((p - 1) * ipp + ipp) =
            (L.length - (p - 1) * ipp) - ipp := by omega
        rw [hsub]
        have hr1 : 1 ≤ L.length - (p - 1) * ipp := by omega
        rw [pagesLeft_step ipp (L.length - (p - 1) * ipp) hipp hr1]
    · rw [iterAux_stop _ _ (k + 1) _ _ hcond]
      rw [int_cond_iff] at hcond
      have hge : L.length ≤ (p - 1) * ipp := by omega
      have hz : L.length - (p - 1) * ipp = 0 := by omega
      rw [List.drop_eq_nil_of_le hge, hz, pagesLeft_zero ipp hipp]

/-- C1: a traversal over a fetch binding that reports a constant totalCount
and partitions the collection into successive pages, started at page 1 with
any positive itemsPerPage, yields exactly the whole collection in original
order across pages and makes exactly max(1, ceil(totalCount / itemsPerPage))
fetch calls; in particular 5 items at 5 per page give 5 items in 1 fetch
call, and 25 items at 10 per page give 25 items in exactly 3 fetch calls. -/
theorem pagination_complete_traversal :
    (∀ (α Item : Type) (a : α) (L : List Item) (ipp fuel : Nat),
        1 ≤ ipp → L.length + 2 ≤ fuel →
        AtlasPagination.iter ⟨a, pagedFetch L, 1, (ipp : Int)⟩ fuel =
          ⟨L, max 1 ((L.length + ipp - 1) / ipp), .done⟩)
    ∧ (∀ (Item : Type) (L : List Item), L.length = 5 →
        AtlasPagination.iter (⟨(), pagedFetch L, 1, ((5 : Nat) : Int)⟩ :
            AtlasPagination Unit Empty Item) 7 = ⟨L, 1, .done⟩)
    ∧ (∀ (Item : Type) (L : List Item), L.length = 25 →
        AtlasPagination.iter (⟨(), pagedFetch L, 1, ((10 : Nat) : Int)⟩ :
            AtlasPagination Unit Empty Item) 27 = ⟨L, 3, .done⟩) := by
  have hgen : ∀ (α Item : Type) (a : α) (L : List Item) (ipp fuel : Nat),
      1 ≤ ipp → L.length + 2 ≤ fuel →
      AtlasPagination.iter ⟨a, pagedFetch L, 1, (ipp : Int)⟩ fuel =
        ⟨L, max 1 ((L.length + ipp - 1) / ipp), .done⟩ := by
    intro α Item a L ipp fuel h1 hf
    obtain ⟨k, rfl⟩ : ∃ k, fuel = (k + 1) + 1 := ⟨fuel - 2, by omega⟩
    have hc1 : (1 : Int) * (ipp : Int) - 1 * (ipp : Int) < (ipp : Int) := by omega
    have hslice : pageSlice L (1 : Int) (ipp : Int) = L.take ipp := by
      unfold pageSlice
      norm_num
    have hfetch1 : pagedFetch L (1 : Int) (ipp : Int) =
        .ok ⟨some (L.length : Int), some (L.take ipp)⟩ := by
      unfold pagedFetch
      rw [hslice]
    show iterAux (pagedFetch L) (ipp : Int) ((k + 1) + 1) 1 (1 * (ipp : Int)) = _
    rw [iterAux_page _ _ (k + 1) _ _ _ _ hc1 hfetch1]
    have hcast2 : ((1 : Int) + 1) = ((2 : Nat) : Int) := by norm_num
    rw [hcast2]
    have hkipp : k ≤ k * ipp := Nat.le_mul_of_pos_right k (by omega)
    have hfuel2 : L.length + ipp ≤ (2 + k) * ipp := by
      have hexp : (2 + k) * ipp = 2 * ipp + k * ipp := by ring
      omega
    rw [iterAux_pagedFetch L ipp h1 k 2 (by omega) hfuel2]
    have h21 : (2 - 1) * ipp = ipp := by omega
    dsimp only
    simp only [Trace.mk.injEq]
    refine ⟨?_, ?_, trivial⟩
    · rw [h21, List.take_append_drop]
    · rw [h21]
      exact pagesTotal_eq ipp L.length h1
  refine ⟨hgen, ?_, ?_⟩
  · intro Item L hL
    have h := hgen Unit Item () L 5 7 (by omega) (by omega)
    rw [hL] at h
    simpa using h
  · intro Item L hL
    have h := hgen Unit Item () L 10 27 (by omega) (by omega)
    rw [hL] at h
    simpa using h

/-- C1 witness: the concrete 5-item and 25-item collections. -/
theorem pagination_complete_traversal_witness :
    AtlasPagination.iter (⟨(), pagedFetch [0, 1, 2, 3, 4], 1, ((5 : Nat) : Int)⟩ :
        AtlasPagination Unit Empty Nat) 7 = ⟨[0, 1, 2, 3, 4], 1, .done⟩
    ∧ AtlasPagination.iter (⟨(), pagedFetch (List.range 25), 1, ((10 : Nat) : Int)⟩ :
        AtlasPagination Unit Empty Nat) 27 = ⟨List.range 25, 3, .done⟩ :=
  ⟨pagination_complete_traversal.2.1 Nat [0, 1, 2, 3, 4] (by decide),
   pagination_complete_traversal.2.2 Nat (List.range 25) (by simp)⟩
